import Mathlib

/-!
Verification of the shared BLE type definitions in
`features/FEATURE_BLE/ble/BLETypes.h` (namespace `ble`).

The header is a pure type-definitions library: passkey ASCII/number
conversions, fixed-size byte containers, tagged enumerations and
attribute-handle ranges.  Each C++ entity is shallowly embedded below:
machine integers become `Nat` with explicit `% 2 ^ w` where the source
can overflow or truncate, byte buffers become `List Nat`, and pointers
become `Option` values or explicit memory functions.
-/

namespace ble

/-! ## Passkey (class `PasskeyAscii`)

`PasskeyAscii` stores a 6-digit passkey as six ASCII bytes.
`PASSKEY_LEN = 6` and `NUMBER_OFFSET = '0' = 48` are the class constants.
-/

def PASSKEY_LEN : Nat := 6

def NUMBER_OFFSET : Nat := 48

/-- The constructor `PasskeyAscii(passkey_num_t passkey)`.

Source loop: `for (int i = 5, m = 100000; i >= 0; --i, m /= 10)` with body
`result = passkey / m; ascii[i] = NUMBER_OFFSET + result; passkey -= result * m;`.
The loop has fixed bounds, so it is embedded unrolled, one block per
iteration, `i` descending from 5 to 0 while `m` runs through
100000, 10000, 1000, 100, 10, 1.  `passkey` is a `uint32_t`, hence the
`% 2 ^ 32` on entry; `result * m ≤ passkey`, so the `uint32_t`
subtraction never wraps and `Nat` subtraction is exact.  `ascii[i]` is a
`uint8_t`, so the stored byte is `(NUMBER_OFFSET + result)` reduced
`% 2 ^ 32` (the `uint32_t` addition) and then `% 256` (the `uint8_t`
store).  The result is the `ascii` array as a list indexed 0..5. -/
def PasskeyAscii.ofNum (passkey : Nat) : List Nat :=
  let p5 := passkey % 2 ^ 32
  let r5 := p5 / 100000
  let a5 := (NUMBER_OFFSET + r5) % 2 ^ 32 % 256
  let p4 := p5 - r5 * 100000
  let r4 := p4 / 10000
  let a4 := (NUMBER_OFFSET + r4) % 2 ^ 32 % 256
  let p3 := p4 - r4 * 10000
  let r3 := p3 / 1000
  let a3 := (NUMBER_OFFSET + r3) % 2 ^ 32 % 256
  let p2 := p3 - r3 * 1000
  let r2 := p2 / 100
  let a2 := (NUMBER_OFFSET + r2) % 2 ^ 32 % 256
  let p1 := p2 - r2 * 100
  let r1 := p1 / 10
  let a1 := (NUMBER_OFFSET + r1) % 2 ^ 32 % 256
  let p0 := p1 - r1 * 10
  let r0 := p0 / 1
  let a0 := (NUMBER_OFFSET + r0) % 2 ^ 32 % 256
  [a0, a1, a2, a3, a4, a5]

/-- One iteration of the `to_num` loop:
`passkey += (ascii[i] - NUMBER_OFFSET) * m`.

In C, `ascii[i] - NUMBER_OFFSET` is computed at type `int` (possibly
negative), converted to `size_t` for the multiplication by `m`
(hence the `Int` subtraction, `% 2 ^ 64` and `.toNat`), multiplied
modulo `2 ^ 64`, and the compound assignment truncates the sum back to
`uint32_t`, hence the final `% 2 ^ 32`. -/
def to_num_step (passkey a m : Nat) : Nat :=
  (passkey + (((a : Int) - (NUMBER_OFFSET : Int)) % 2 ^ 64).toNat * m % 2 ^ 64) % 2 ^ 32

/-- Static member `PasskeyAscii::to_num(const uint8_t *ascii)`.

Source loop: `for (size_t i = 0, m = 1; i < PASSKEY_LEN; ++i, m *= 10)`
with body `passkey += (ascii[i] - NUMBER_OFFSET) * m;`, starting from
`passkey = 0`.  The fixed-bound loop is embedded unrolled with `i`
ascending 0..5 and `m` running through 1, 10, 100, 1000, 10000, 100000. -/
def PasskeyAscii.to_num (ascii : List Nat) : Nat :=
  let q0 := to_num_step 0 (ascii.getD 0 0) 1
  let q1 := to_num_step q0 (ascii.getD 1 0) 10
  let q2 := to_num_step q1 (ascii.getD 2 0) 100
  let q3 := to_num_step q2 (ascii.getD 3 0) 1000
  let q4 := to_num_step q3 (ascii.getD 4 0) 10000
  to_num_step q4 (ascii.getD 5 0) 100000

/-- Default constructor `PasskeyAscii()`:
`memset(ascii, NUMBER_OFFSET, PASSKEY_LEN)`. -/
def PasskeyAscii.defaultCtor : List Nat :=
  List.replicate PASSKEY_LEN NUMBER_OFFSET

/-- Constructor `PasskeyAscii(const uint8_t *passkey)`.  A possibly-null
pointer to a readable byte region is an `Option (List Nat)`.  If the
pointer is non-null the constructor does
`memcpy(ascii, passkey, PASSKEY_LEN)` (reads bytes 0..5 of the source);
otherwise it does `memset(ascii, NUMBER_OFFSET, PASSKEY_LEN)`. -/
def PasskeyAscii.ofPtr (passkey : Option (List Nat)) : List Nat :=
  match passkey with
  | some p => (List.range PASSKEY_LEN).map (fun i => p.getD i 0)
  | none => List.replicate PASSKEY_LEN NUMBER_OFFSET

/-! ### Arithmetic lemmas about the passkey conversions -/

/-- Closed form of the number-to-ASCII constructor on the documented
domain: byte `i` is `'0' +` the `10 ^ i` digit of `n` (index 0 is the
ones place). -/
lemma ofNum_digits (n : Nat) (hn : n ≤ 999999) :
    PasskeyAscii.ofNum n =
      [48 + n % 10, 48 + n / 10 % 10, 48 + n / 100 % 10,
       48 + n / 1000 % 10, 48 + n / 10000 % 10, 48 + n / 100000 % 10] := by
  simp only [PasskeyAscii.ofNum, NUMBER_OFFSET, List.cons.injEq, and_true]
  refine ⟨?_, ?_, ?_, ?_, ?_, ?_⟩ <;> omega

/-- One `to_num` iteration on an in-range digit byte is exact: no
intermediate truncation fires. -/
lemma to_num_step_eq (p a m : Nat) (h48 : 48 ≤ a) (h57 : a ≤ 57)
    (hm : (a - 48) * m < 2 ^ 64) (hp : p + (a - 48) * m < 2 ^ 32) :
    to_num_step p a m = p + (a - 48) * m := by
  have h1 : ((((a : Int) - (NUMBER_OFFSET : Int)) % 2 ^ 64)).toNat = a - 48 := by
    simp only [NUMBER_OFFSET]
    omega
  rw [to_num_step, h1, Nat.mod_eq_of_lt hm, Nat.mod_eq_of_lt hp]

/-- Closed form of `to_num` on a buffer of six ASCII digit bytes. -/
lemma to_num_digits (a0 a1 a2 a3 a4 a5 : Nat)
    (h0 : 48 ≤ a0 ∧ a0 ≤ 57) (h1 : 48 ≤ a1 ∧ a1 ≤ 57)
    (h2 : 48 ≤ a2 ∧ a2 ≤ 57) (h3 : 48 ≤ a3 ∧ a3 ≤ 57)
    (h4 : 48 ≤ a4 ∧ a4 ≤ 57) (h5 : 48 ≤ a5 ∧ a5 ≤ 57) :
    PasskeyAscii.to_num [a0, a1, a2, a3, a4, a5] =
      (a0 - 48) + (a1 - 48) * 10 + (a2 - 48) * 100 + (a3 - 48) * 1000 +
        (a4 - 48) * 10000 + (a5 - 48) * 100000 := by
  obtain ⟨h0l, h0r⟩ := h0
  obtain ⟨h1l, h1r⟩ := h1
  obtain ⟨h2l, h2r⟩ := h2
  obtain ⟨h3l, h3r⟩ := h3
  obtain ⟨h4l, h4r⟩ := h4
  obtain ⟨h5l, h5r⟩ := h5
  simp only [PasskeyAscii.to_num, List.getD_cons_zero, List.getD_cons_succ]
  rw [to_num_step_eq 0 a0 1 h0l h0r (by omega) (by omega)]
  rw [to_num_step_eq _ a1 10 h1l h1r (by omega) (by omega)]
  rw [to_num_step_eq _ a2 100 h2l h2r (by omega) (by omega)]
  rw [to_num_step_eq _ a3 1000 h3l h3r (by omega) (by omega)]
  rw [to_num_step_eq _ a4 10000 h4l h4r (by omega) (by omega)]
  rw [to_num_step_eq _ a5 100000 h5l h5r (by omega) (by omega)]
  ring

/-! ## Fixed-size byte container (`template <size_t array_size> struct byte_array_t`)

The container owns `uint8_t _value[array_size]`; it is embedded as a
list of byte values of that length. -/

structure byte_array_t (array_size : Nat) where
  _value : List Nat
  hlen : _value.length = array_size

/-- Default constructor `byte_array_t()`:
`memset(_value, 0x00, sizeof(_value))`. -/
def byte_array_t.defaultCtor (array_size : Nat) : byte_array_t array_size :=
  ⟨List.replicate array_size 0, List.length_replicate _ _⟩

/-- Free function `is_all_zeros(byte_array)`: iterates `i` from 0 to
`size() - 1` and returns `false` at the first byte with
`byte_array[i] != 0`, else `true`.  The index loop over the buffer is
embedded as structural recursion over the byte list, which visits the
same bytes in the same order. -/
def is_all_zeros_go : List Nat → Bool
  | [] => true
  | x :: xs => if x ≠ 0 then false else is_all_zeros_go xs

def is_all_zeros {array_size : Nat} (byte_array : byte_array_t array_size) :
    Bool :=
  is_all_zeros_go byte_array._value

/-- Free function `set_all_zeros(byte_array)`:
`memset(&byte_array[0], 0x00, byte_array.size())`, i.e. every byte of
the container becomes 0 (the length is unchanged). -/
def set_all_zeros {array_size : Nat} (_byte_array : byte_array_t array_size) :
    byte_array_t array_size :=
  ⟨List.replicate array_size 0, List.length_replicate _ _⟩

lemma is_all_zeros_go_replicate (n : Nat) :
    is_all_zeros_go (List.replicate n 0) = true := by
  induction n with
  | zero => rfl
  | succ k ih => simpa [List.replicate, is_all_zeros_go] using ih

/-! ### The `(pointer, length)` constructor, at the memory level

`byte_array_t(const uint8_t* input_value, size_t size)` runs
`memcpy(_value, input_value, size)` — it copies `size` bytes
unconditionally, with no clamping to `array_size`.  To reason about
where it writes, the destination is modelled inside an addressed byte
memory `mem : Nat → Nat`: the container's `array_size` bytes occupy
addresses `[dst, dst + array_size)`, and `memcpy` overwrites addresses
`[dst, dst + len)` with the source bytes. -/

def memcpy (dst : Nat) (src : Nat → Nat) (len : Nat) (mem : Nat → Nat) :
    Nat → Nat :=
  fun j => if dst ≤ j ∧ j < dst + len then src (j - dst) else mem j

/-- The `(pointer, length)` constructor `byte_array_t(input_value, size)`
as its effect on the surrounding memory: `memcpy(_value, input_value, size)`
with `_value` at address `dst`. -/
def byte_array_ctor_ptr_len (_array_size : Nat) (dst : Nat)
    (input_value : Nat → Nat) (size : Nat) (mem : Nat → Nat) : Nat → Nat :=
  memcpy dst input_value size mem

/-! ## Attribute handles -/

/-- `typedef uint16_t attribute_handle_t`; handle values are the
naturals below `2 ^ 16`, carried as `Nat`. -/
def attribute_handle_t : Type := Nat

/-- `struct attribute_handle_range_t`: inclusive pair of attribute
handles.  The C++ field `end` is a Lean keyword, hence the trailing
underscores on both field names. -/
structure attribute_handle_range_t where
  begin_ : Nat
  end_ : Nat

/-- `operator==` on `attribute_handle_range_t`:
`(lhs.begin == rhs.begin) && (lhs.end == rhs.end)`. -/
def attribute_handle_range_t.eq
    (lhs rhs : attribute_handle_range_t) : Bool :=
  (lhs.begin_ == rhs.begin_) && (lhs.end_ == rhs.end_)

/-- `operator!=` on `attribute_handle_range_t`: `!(lhs == rhs)`. -/
def attribute_handle_range_t.ne
    (lhs rhs : attribute_handle_range_t) : Bool :=
  !(attribute_handle_range_t.eq lhs rhs)

/-- Factory `attribute_handle_range(begin, end)`: aggregate-initializes
the pair from its two arguments. -/
def attribute_handle_range (begin_ end_ : Nat) : attribute_handle_range_t :=
  ⟨begin_, end_⟩

/-! ### Claim theorems about the passkey conversions -/

/-- C1: passkey conversion is a bijection between `[0, 999999]` and
6-digit ASCII buffers: `to_num` after the numeric constructor is the
identity on `[0, 999999]`, and the numeric constructor after `to_num`
reproduces any buffer of six ASCII digit bytes byte for byte. -/
theorem passkey_conversion_bijection :
    (∀ n : Nat, n ≤ 999999 →
      PasskeyAscii.to_num (PasskeyAscii.ofNum n) = n) ∧
    (∀ a0 a1 a2 a3 a4 a5 : Nat,
      48 ≤ a0 ∧ a0 ≤ 57 → 48 ≤ a1 ∧ a1 ≤ 57 → 48 ≤ a2 ∧ a2 ≤ 57 →
      48 ≤ a3 ∧ a3 ≤ 57 → 48 ≤ a4 ∧ a4 ≤ 57 → 48 ≤ a5 ∧ a5 ≤ 57 →
      PasskeyAscii.ofNum (PasskeyAscii.to_num [a0, a1, a2, a3, a4, a5]) =
        [a0, a1, a2, a3, a4, a5]) := by
  constructor
  · intro n hn
    rw [ofNum_digits n hn]
    rw [to_num_digits _ _ _ _ _ _ (by omega) (by omega) (by omega)
      (by omega) (by omega) (by omega)]
    omega
  · intro a0 a1 a2 a3 a4 a5 h0 h1 h2 h3 h4 h5
    rw [to_num_digits a0 a1 a2 a3 a4 a5 h0 h1 h2 h3 h4 h5]
    rw [ofNum_digits _ (by omega)]
    simp only [List.cons.injEq, and_true]
    refine ⟨?_, ?_, ?_, ?_, ?_, ?_⟩ <;> omega

/-- Witness for C1 at n = 123456 and at the buffer "654321". -/
theorem passkey_conversion_bijection_witness :
    PasskeyAscii.to_num (PasskeyAscii.ofNum 123456) = 123456 ∧
    PasskeyAscii.ofNum (PasskeyAscii.to_num [54, 53, 52, 51, 50, 49]) =
      [54, 53, 52, 51, 50, 49] :=
  ⟨passkey_conversion_bijection.1 123456 (by norm_num),
   passkey_conversion_bijection.2 54 53 52 51 50 49 (by norm_num)
     (by norm_num) (by norm_num) (by norm_num) (by norm_num) (by norm_num)⟩

/-- C2 counterexample: the claimed formula
`b_i = '0' + ⌊n / 10 ^ (5 - i)⌋ mod 10` fails at `n = 123456`, `i = 0`:
the constructor stores `'6' = 54` at index 0, while the formula demands
`'1' = 49` there. -/
theorem passkey_msd_formula_counterexample :
    (PasskeyAscii.ofNum 123456).getD 0 0 ≠ 48 + 123456 / 10 ^ (5 - 0) % 10 := by
  decide

/-- C2 amended: for every `n` in `[0, 999999]` the numeric constructor
produces six bytes `b_0 … b_5` with `b_i = '0' + ⌊n / 10 ^ i⌋ mod 10`,
so index 5 (not index 0) holds the most significant digit and index 0
holds the ones digit. -/
theorem passkey_digit_formula (n : Nat) (hn : n ≤ 999999) (i : Nat)
    (hi : i < 6) :
    (PasskeyAscii.ofNum n).getD i 0 = 48 + n / 10 ^ i % 10 := by
  rw [ofNum_digits n hn]
  interval_cases i <;> norm_num

/-- Witness for the amended C2 at n = 123456, i = 3. -/
theorem passkey_digit_formula_witness :
    (PasskeyAscii.ofNum 123456).getD 3 0 = 48 + 123456 / 10 ^ 3 % 10 :=
  passkey_digit_formula 123456 (by norm_num) 3 (by norm_num)

/-- C3: on a buffer of six ASCII digit bytes, `to_num` returns
`Σ_{i<6} (b_i - '0') * 10 ^ i` (index 0 is the ones place); concretely,
the numeric constructor at 123456 stores the bytes
`{'6','5','4','3','2','1'}` and `to_num` of that buffer returns 123456. -/
theorem to_num_sum_little_endian :
    (∀ a0 a1 a2 a3 a4 a5 : Nat,
      48 ≤ a0 ∧ a0 ≤ 57 → 48 ≤ a1 ∧ a1 ≤ 57 → 48 ≤ a2 ∧ a2 ≤ 57 →
      48 ≤ a3 ∧ a3 ≤ 57 → 48 ≤ a4 ∧ a4 ≤ 57 → 48 ≤ a5 ∧ a5 ≤ 57 →
      PasskeyAscii.to_num [a0, a1, a2, a3, a4, a5] =
        ∑ i ∈ Finset.range 6, ([a0, a1, a2, a3, a4, a5].getD i 0 - 48) * 10 ^ i) ∧
    PasskeyAscii.ofNum 123456 = [54, 53, 52, 51, 50, 49] ∧
    PasskeyAscii.to_num [54, 53, 52, 51, 50, 49] = 123456 := by
  refine ⟨?_, by decide, by decide⟩
  intro a0 a1 a2 a3 a4 a5 h0 h1 h2 h3 h4 h5
  rw [to_num_digits a0 a1 a2 a3 a4 a5 h0 h1 h2 h3 h4 h5]
  simp [Finset.sum_range_succ]

/-- Witness for C3 at the all-ones digit buffer "111111". -/
theorem to_num_sum_little_endian_witness :
    PasskeyAscii.to_num [49, 49, 49, 49, 49, 49] =
      ∑ i ∈ Finset.range 6, ([49, 49, 49, 49, 49, 49].getD i 0 - 48) * 10 ^ i :=
  to_num_sum_little_endian.1 49 49 49 49 49 49 (by norm_num) (by norm_num)
    (by norm_num) (by norm_num) (by norm_num) (by norm_num)

/-- C10: constructing a `PasskeyAscii` from a null pointer reads nothing
through the pointer: it equals the default-constructed value, the six
bytes `{'0','0','0','0','0','0'}`, whose numeric conversion is 0. -/
theorem passkey_null_ptr_default :
    PasskeyAscii.ofPtr none = PasskeyAscii.defaultCtor ∧
    PasskeyAscii.ofPtr none = [48, 48, 48, 48, 48, 48] ∧
    PasskeyAscii.to_num (PasskeyAscii.ofPtr none) = 0 := by
  refine ⟨rfl, by decide, by decide⟩

/-! ## Tagged enumerations -/

/-- Modelled from the spec: `SafeEnum<Target, LayoutType>` is declared in
`ble/SafeEnum.h`, which is not among the sources.  Per the spec (§4.1) it
is an opaque newtype over the 8-bit storage width, parameterized by a
distinct tag type: it holds the underlying integral value of one
enumerator of its tag, is constructed from an enumerator of its tag, and
compares equal/not-equal only with values of the same tag (cross-tag
assignment and comparison do not typecheck).  The tag parameter makes
`SafeEnum A` and `SafeEnum B` distinct Lean types whenever `A ≠ B`, so
only the same-tag comparison below is statable, mirroring the C++
rejection. -/
structure SafeEnum (Target : Type) where
  _value : Nat

/-- Modelled from the spec: same-tag equality of `SafeEnum` values is
byte-level equality on the stored 8-bit value. -/
def SafeEnum.eq {Target : Type} (lhs rhs : SafeEnum Target) : Bool :=
  lhs._value == rhs._value

/-- The scoped enum `link_encryption_t::type` (enumerators take the
default consecutive values 0.. in source order). -/
inductive link_encryption_t.type where
  | NOT_ENCRYPTED
  | ENCRYPTION_IN_PROGRESS
  | ENCRYPTED
  | ENCRYPTED_WITH_MITM
  | ENCRYPTED_WITH_SC_AND_MITM
deriving DecidableEq, Fintype

/-- Integer value of each `link_encryption_t::type` enumerator: no
explicit initializers in source, so 0, 1, 2, 3, 4 in order. -/
def link_encryption_t.type.val : link_encryption_t.type → Nat
  | .NOT_ENCRYPTED => 0
  | .ENCRYPTION_IN_PROGRESS => 1
  | .ENCRYPTED => 2
  | .ENCRYPTED_WITH_MITM => 3
  | .ENCRYPTED_WITH_SC_AND_MITM => 4

/-- `struct link_encryption_t : SafeEnum<link_encryption_t, uint8_t>`. -/
abbrev link_encryption_t : Type := SafeEnum link_encryption_t.type

/-- Constructor `link_encryption_t(type value)`: stores the enumerator's
integer value in the `uint8_t` storage. -/
def link_encryption_t.ctor (value : link_encryption_t.type) :
    link_encryption_t :=
  ⟨value.val % 256⟩

/-- The scoped enum `pairing_failure_t::type` with its explicit wire
codes 0x01..0x0E. -/
inductive pairing_failure_t.type where
  | PASSKEY_ENTRY_FAILED
  | OOB_NOT_AVAILABLE
  | AUTHENTICATION_REQUIREMENTS
  | CONFIRM_VALUE_FAILED
  | PAIRING_NOT_SUPPORTED
  | ENCRYPTION_KEY_SIZE
  | COMMAND_NOT_SUPPORTED
  | UNSPECIFIED_REASON
  | REPEATED_ATTEMPTS
  | INVALID_PARAMETERS
  | DHKEY_CHECK_FAILED
  | NUMERIC_COMPARISON_FAILED
  | BR_EDR_PAIRING_IN_PROGRESS
  | CROSS_TRANSPORT_KEY_DERIVATION_OR_GENERATION_NOT_ALLOWED
deriving DecidableEq, Fintype

/-- Integer value of each `pairing_failure_t::type` enumerator, as
assigned explicitly in the source. -/
def pairing_failure_t.type.val : pairing_failure_t.type → Nat
  | .PASSKEY_ENTRY_FAILED => 0x01
  | .OOB_NOT_AVAILABLE => 0x02
  | .AUTHENTICATION_REQUIREMENTS => 0x03
  | .CONFIRM_VALUE_FAILED => 0x04
  | .PAIRING_NOT_SUPPORTED => 0x05
  | .ENCRYPTION_KEY_SIZE => 0x06
  | .COMMAND_NOT_SUPPORTED => 0x07
  | .UNSPECIFIED_REASON => 0x08
  | .REPEATED_ATTEMPTS => 0x09
  | .INVALID_PARAMETERS => 0x0A
  | .DHKEY_CHECK_FAILED => 0x0B
  | .NUMERIC_COMPARISON_FAILED => 0x0c
  | .BR_EDR_PAIRING_IN_PROGRESS => 0x0D
  | .CROSS_TRANSPORT_KEY_DERIVATION_OR_GENERATION_NOT_ALLOWED => 0x0E

/-- `struct pairing_failure_t : SafeEnum<pairing_failure_t, uint8_t>`. -/
abbrev pairing_failure_t : Type := SafeEnum pairing_failure_t.type

/-- Constructor `pairing_failure_t(type value)`. -/
def pairing_failure_t.ctor (value : pairing_failure_t.type) :
    pairing_failure_t :=
  ⟨value.val % 256⟩

/-- The scoped enum `io_capability_t::type` with its explicit codes
0x00..0x04. -/
inductive io_capability_t.type where
  | DISPLAY_ONLY
  | DISPLAY_YES_NO
  | KEYBOARD_ONLY
  | NO_INPUT_NO_OUTPUT
  | KEYBOARD_DISPLAY
deriving DecidableEq, Fintype

/-- Integer value of each `io_capability_t::type` enumerator, as
assigned explicitly in the source. -/
def io_capability_t.type.val : io_capability_t.type → Nat
  | .DISPLAY_ONLY => 0x00
  | .DISPLAY_YES_NO => 0x01
  | .KEYBOARD_ONLY => 0x02
  | .NO_INPUT_NO_OUTPUT => 0x03
  | .KEYBOARD_DISPLAY => 0x04

/-- `struct io_capability_t : SafeEnum<io_capability_t, uint8_t>`. -/
abbrev io_capability_t : Type := SafeEnum io_capability_t.type

/-- Constructor `io_capability_t(type value)`. -/
def io_capability_t.ctor (value : io_capability_t.type) : io_capability_t :=
  ⟨value.val % 256⟩

/-- The scoped enum `peer_address_type_t::type` (`PUBLIC = 0`
explicitly; the rest take consecutive values). -/
inductive peer_address_type_t.type where
  | PUBLIC
  | RANDOM
  | PUBLIC_IDENTITY
  | RANDOM_STATIC_IDENTITY
deriving DecidableEq, Fintype

/-- Integer value of each `peer_address_type_t::type` enumerator:
`PUBLIC = 0` explicit, then 1, 2, 3. -/
def peer_address_type_t.type.val : peer_address_type_t.type → Nat
  | .PUBLIC => 0
  | .RANDOM => 1
  | .PUBLIC_IDENTITY => 2
  | .RANDOM_STATIC_IDENTITY => 3

/-- `struct peer_address_type_t : SafeEnum<peer_address_type_t, uint8_t>`. -/
abbrev peer_address_type_t : Type := SafeEnum peer_address_type_t.type

/-- Constructor `peer_address_type_t(type value)`. -/
def peer_address_type_t.ctor (value : peer_address_type_t.type) :
    peer_address_type_t :=
  ⟨value.val % 256⟩

/-- Default constructor `peer_address_type_t()`: delegates to
`SafeEnum<peer_address_type_t, uint8_t>(PUBLIC)`. -/
def peer_address_type_t.defaultCtor : peer_address_type_t :=
  ⟨peer_address_type_t.type.PUBLIC.val % 256⟩

/-! ### Claim theorems about the byte container and handle ranges -/

/-- C5 counterexample: the `(pointer, length)` constructor does not copy
`min(L, N)` bytes staying inside the container — for `N = 2`, `L = 3`,
container at address 0 in a memory holding 7 everywhere and a source
holding 5 everywhere, the construction overwrites address 2, which lies
outside the container's two bytes `[0, 2)`. -/
theorem byte_array_ctor_len_counterexample :
    byte_array_ctor_ptr_len 2 0 (fun _ => 5) 3 (fun _ => 7) 2 = 5 ∧
    ¬ (2 : Nat) < 2 := by
  constructor
  · rfl
  · omega

/-- C5 amended: the `(pointer, length)` constructor copies exactly
`L` bytes, unconditionally.  When `L ≤ N` this writes only inside the
container: every address outside `[dst, dst + N)` is untouched, the
first `L` container bytes hold the source bytes, and the remaining
`N - L` container bytes keep whatever (unspecified) value they had.
When `L > N` the write overruns the container (caller contract
violation, see the counterexample). -/
theorem byte_array_ctor_len_amended (array_size dst len : Nat)
    (input_value : Nat → Nat) (mem : Nat → Nat)
    (hlen : len ≤ array_size) :
    (∀ j, j < dst ∨ dst + array_size ≤ j →
      byte_array_ctor_ptr_len array_size dst input_value len mem j = mem j) ∧
    (∀ j, j < len →
      byte_array_ctor_ptr_len array_size dst input_value len mem (dst + j) =
        input_value j) ∧
    (∀ j, len ≤ j → j < array_size →
      byte_array_ctor_ptr_len array_size dst input_value len mem (dst + j) =
        mem (dst + j)) := by
  refine ⟨?_, ?_, ?_⟩
  · intro j hj
    simp only [byte_array_ctor_ptr_len, memcpy]
    rw [if_neg]
    omega
  · intro j hj
    simp only [byte_array_ctor_ptr_len, memcpy]
    rw [if_pos (by omega)]
    congr 1
    omega
  · intro j hj1 hj2
    simp only [byte_array_ctor_ptr_len, memcpy]
    rw [if_neg]
    omega

/-- Witness for the amended C5: `N = 4`, `L = 2`, container at address
10; the byte before the container keeps its value, the copied byte is
the source's, and the third container byte keeps the old memory value. -/
theorem byte_array_ctor_len_amended_witness :
    byte_array_ctor_ptr_len 4 10 (fun j => 100 + j) 2 (fun j => j) 9 = 9 ∧
    byte_array_ctor_ptr_len 4 10 (fun j => 100 + j) 2 (fun j => j) (10 + 1) =
      101 ∧
    byte_array_ctor_ptr_len 4 10 (fun j => 100 + j) 2 (fun j => j) (10 + 2) =
      12 :=
  ⟨(byte_array_ctor_len_amended 4 10 2 (fun j => 100 + j) (fun j => j)
      (by norm_num)).1 9 (by norm_num),
   (byte_array_ctor_len_amended 4 10 2 (fun j => 100 + j) (fun j => j)
      (by norm_num)).2.1 1 (by norm_num),
   (byte_array_ctor_len_amended 4 10 2 (fun j => 100 + j) (fun j => j)
      (by norm_num)).2.2 2 (by norm_num) (by norm_num)⟩

/-- C7: for every size `N`, a default-constructed `byte_array_t<N>` is
all zeros, and `set_all_zeros` makes any `byte_array_t<N>` all zeros
regardless of its prior contents. -/
theorem byte_array_zeroing (array_size : Nat) :
    is_all_zeros (byte_array_t.defaultCtor array_size) = true ∧
    ∀ b : byte_array_t array_size, is_all_zeros (set_all_zeros b) = true :=
  ⟨is_all_zeros_go_replicate array_size,
   fun _ => is_all_zeros_go_replicate array_size⟩

/-- C8: equality of `attribute_handle_range_t` is pointwise on
`(begin, end)`: two ranges built by the factory from the same pair
compare equal, and ranges sharing `begin` but differing in `end`
compare not-equal. -/
theorem attribute_handle_range_pointwise_eq (a b c : Nat) (hbc : b ≠ c) :
    attribute_handle_range_t.eq
      (attribute_handle_range a b) (attribute_handle_range a b) = true ∧
    attribute_handle_range_t.ne
      (attribute_handle_range a b) (attribute_handle_range a c) = true := by
  constructor
  · simp [attribute_handle_range_t.eq, attribute_handle_range]
  · simp [attribute_handle_range_t.ne, attribute_handle_range_t.eq,
      attribute_handle_range]
    omega

/-- Witness for C8 at handles a = 1, b = 2, c = 7. -/
theorem attribute_handle_range_pointwise_eq_witness :
    attribute_handle_range_t.eq
      (attribute_handle_range 1 2) (attribute_handle_range 1 2) = true ∧
    attribute_handle_range_t.ne
      (attribute_handle_range 1 2) (attribute_handle_range 1 7) = true :=
  attribute_handle_range_pointwise_eq 1 2 7 (by norm_num)

/-! ### Claim theorems about the tagged enumerations -/

/-- C4: the `pairing_failure_t` enumerators carry exactly the wire
codes 0x01 through 0x0E and the `io_capability_t` enumerators exactly
0x00 through 0x04; in particular the stored numeric representation of
`pairing_failure_t(DHKEY_CHECK_FAILED)` is 0x0B and that of
`io_capability_t(KEYBOARD_DISPLAY)` is 0x04. -/
theorem enum_wire_codes :
    pairing_failure_t.type.PASSKEY_ENTRY_FAILED.val = 0x01 ∧
    pairing_failure_t.type.OOB_NOT_AVAILABLE.val = 0x02 ∧
    pairing_failure_t.type.AUTHENTICATION_REQUIREMENTS.val = 0x03 ∧
    pairing_failure_t.type.CONFIRM_VALUE_FAILED.val = 0x04 ∧
    pairing_failure_t.type.PAIRING_NOT_SUPPORTED.val = 0x05 ∧
    pairing_failure_t.type.ENCRYPTION_KEY_SIZE.val = 0x06 ∧
    pairing_failure_t.type.COMMAND_NOT_SUPPORTED.val = 0x07 ∧
    pairing_failure_t.type.UNSPECIFIED_REASON.val = 0x08 ∧
    pairing_failure_t.type.REPEATED_ATTEMPTS.val = 0x09 ∧
    pairing_failure_t.type.INVALID_PARAMETERS.val = 0x0A ∧
    pairing_failure_t.type.DHKEY_CHECK_FAILED.val = 0x0B ∧
    pairing_failure_t.type.NUMERIC_COMPARISON_FAILED.val = 0x0C ∧
    pairing_failure_t.type.BR_EDR_PAIRING_IN_PROGRESS.val = 0x0D ∧
    pairing_failure_t.type.CROSS_TRANSPORT_KEY_DERIVATION_OR_GENERATION_NOT_ALLOWED.val
      = 0x0E ∧
    io_capability_t.type.DISPLAY_ONLY.val = 0x00 ∧
    io_capability_t.type.DISPLAY_YES_NO.val = 0x01 ∧
    io_capability_t.type.KEYBOARD_ONLY.val = 0x02 ∧
    io_capability_t.type.NO_INPUT_NO_OUTPUT.val = 0x03 ∧
    io_capability_t.type.KEYBOARD_DISPLAY.val = 0x04 ∧
    (pairing_failure_t.ctor .DHKEY_CHECK_FAILED)._value = 0x0B ∧
    (io_capability_t.ctor .KEYBOARD_DISPLAY)._value = 0x04 := by
  decide

/-- C6: a value of one tagged enumeration type cannot be interchanged
with a value of a differently-tagged one.  Each wrapper type is
`SafeEnum` at its own tag, so assignment or comparison across tags needs
the tag types to coincide, and they never do: there is not even an
equivalence between the `pairing_failure_t` and `io_capability_t` tags
(they have different cardinalities), hence the tag types are unequal,
and likewise for `link_encryption_t` versus `pairing_failure_t`. -/
theorem cross_tag_interchange_rejected :
    IsEmpty (pairing_failure_t.type ≃ io_capability_t.type) ∧
    pairing_failure_t.type ≠ io_capability_t.type ∧
    link_encryption_t.type ≠ pairing_failure_t.type := by
  have hpf : Fintype.card pairing_failure_t.type = 14 := rfl
  have hio : Fintype.card io_capability_t.type = 5 := rfl
  have hle : Fintype.card link_encryption_t.type = 5 := rfl
  have hempty : IsEmpty (pairing_failure_t.type ≃ io_capability_t.type) := by
    constructor
    intro e
    have h := Fintype.card_congr e
    rw [hpf, hio] at h
    exact absurd h (by norm_num)
  refine ⟨hempty, ?_, ?_⟩
  · intro h
    exact hempty.false (Equiv.cast h)
  · intro h
    have h2 := Fintype.card_congr (Equiv.cast h)
    rw [hle, hpf] at h2
    exact absurd h2 (by norm_num)

/-- C9: a default-constructed `peer_address_type_t` holds the value
`PUBLIC`, and the enumerator `PUBLIC` has numeric value 0. -/
theorem peer_address_type_default_public :
    peer_address_type_t.defaultCtor = peer_address_type_t.ctor .PUBLIC ∧
    peer_address_type_t.type.PUBLIC.val = 0 ∧
    peer_address_type_t.defaultCtor._value = 0 :=
  ⟨rfl, rfl, rfl⟩

end ble
